import Mathlib

/-!
Shallow embedding of `src/dist/js/Carousel.js` (the `Carousel` class).

Items are modelled by their payload ids (`Nat`); a JS array access
`this.items[k]` is `undefined` exactly when `k < 0` or `k ≥ items.length`,
which the predicate `CState.itemDefined` captures.  All machine numbers in
the source are JS doubles used only at integer values, so indices are
modelled by `Int`; the one rational computation (the translate percentage)
is modelled by `ℚ`.
-/

namespace Carousel

/-- The options record of the constructor (`Carousel.js` lines 16-29),
after `Object.assign` with the defaults; the `responsive` map is not
modelled because no verified operation reads it. -/
structure Options where
  slidesToScroll : Nat
  slidesVisible : Nat
  loop : Bool
  navigation : Bool
  pagination : Bool
  infinite : Bool
  autoplay : Bool
  autoplayTimeout : Nat
deriving DecidableEq

/-- The defaults of `Carousel.js` lines 18-27. -/
def defaultOptions : Options :=
  { slidesToScroll := 1
    slidesVisible := 1
    loop := false
    navigation := true
    pagination := false
    infinite := false
    autoplay := false
    autoplayTimeout := 2000 }

/-- The mutable fields of a `Carousel` instance that the index logic
reads or writes.  `moveCallBacks` stores opaque callback ids in
registration order; `lastAnimated` records whether the most recent
`gotoItem` ran with its transition enabled (the source briefly disables
the CSS transition when `animation === false`, lines 228-231);
`intervalID` mirrors the autoplay handle of line 39. -/
structure CState where
  opts : Options
  items : List Nat
  currentItem : Int
  offset : Nat
  isMobile : Bool
  fromAction : Bool
  moveCallBacks : List Nat
  lastAnimated : Bool
  intervalID : Option Nat
deriving DecidableEq

/-- Getter `get slidesToScroll()` (lines 281-283). -/
def CState.slidesToScroll (s : CState) : Nat :=
  if s.isMobile then 1 else s.opts.slidesToScroll

/-- Getter `get slidesVisible()` (lines 288-290). -/
def CState.slidesVisible (s : CState) : Nat :=
  if s.isMobile then 1 else s.opts.slidesVisible

/-- `this.items[k] !== undefined`: the access is in bounds. -/
def CState.itemDefined (s : CState) (k : Int) : Prop :=
  0 ≤ k ∧ k < (s.items.length : Int)

instance (s : CState) (k : Int) : Decidable (s.itemDefined k) := by
  unfold CState.itemDefined
  exact inferInstance

/-- The counter `cpt` of the forward shortfall loop (`gotoItem`
lines 202-204): the number of `i ∈ [1, slidesVisible]` with
`items[currentItem + slidesToScroll - 1 + i]` undefined. -/
def fwdShortfall (s : CState) : Nat :=
  ((List.range s.slidesVisible).filter
    (fun i : Nat =>
      decide (¬ s.itemDefined
        (s.currentItem + (s.slidesToScroll : Int) - 1 + ((i : Int) + 1))))).length

/-- The counter `cpt` of the backward shortfall loop (`gotoItem`
lines 208-210): the number of `i ∈ [1, slidesToScroll]` with
`items[currentItem - i]` undefined (the source iterates `i` downward,
which does not change the count). -/
def bwdShortfall (s : CState) : Nat :=
  ((List.range s.slidesToScroll).filter
    (fun i : Nat => decide (¬ s.itemDefined (s.currentItem - ((i : Int) + 1))))).length

/-- The shortfall correction of `gotoItem` (lines 199-213): the
reassignment of the requested `index` before the range clamps. -/
def correctedIndex (s : CState) (index : Int) : Int :=
  if index + (s.slidesVisible : Int) > (s.items.length : Int) ∧ index > s.currentItem then
    if (fwdShortfall s : Int) < (s.slidesToScroll : Int) then
      index - fwdShortfall s
    else index
  else if index < 0 ∧ index < s.currentItem then
    if (bwdShortfall s : Int) < (s.slidesToScroll : Int) then
      index + bwdShortfall s
    else index
  else index

/-- The index computation of `gotoItem` (lines 198-224): shortfall
correction on the requested index, then the two range clamps
(lines 215-224). -/
def gotoItemIndex (s : CState) (index : Int) : Int :=
  if correctedIndex s index < 0 then
    if s.opts.loop then (s.items.length : Int) - (s.slidesVisible : Int) else s.currentItem
  else if correctedIndex s index ≥ (s.items.length : Int) ∨
      (¬ s.itemDefined (s.currentItem + (s.slidesVisible : Int)) ∧
        correctedIndex s index > s.currentItem) then
    if s.opts.loop then 0 else s.currentItem
  else correctedIndex s index

/-- Observable side effects of `gotoItem`, in program order. -/
inductive Effect where
  | translate (percent : ℚ) (animated : Bool)
  | setCurrent (index : Int)
  | invoke (cb : Nat) (index : Int)
  | setFromAction
deriving DecidableEq

/-- `gotoItem(index, animation)` (lines 198-238): computes the final
index, applies the transform (without transition when
`animation === false`), updates `currentItem`, invokes every registered
move callback with the final index, and sets `fromAction = true`.
Returns the new state and the effect trace in source order. -/
def gotoItem (s : CState) (index : Int) (animation : Bool) : CState × List Effect :=
  let fi := gotoItemIndex s index
  let translateX : ℚ := (fi : ℚ) * (-100) / (s.items.length : ℚ)
  ( { s with currentItem := fi, fromAction := true, lastAnimated := animation },
    [Effect.translate translateX animation, Effect.setCurrent fi]
      ++ s.moveCallBacks.map (fun cb => Effect.invoke cb fi)
      ++ [Effect.setFromAction] )

/-- State part of `gotoItem`. -/
def gotoItemState (s : CState) (index : Int) (animation : Bool) : CState :=
  (gotoItem s index animation).1

/-- `next()` (lines 156-158); the omitted `animation` argument of the
source defaults to `true`. -/
def nextState (s : CState) : CState :=
  gotoItemState s (s.currentItem + (s.slidesToScroll : Int)) true

/-- `prev()` (lines 160-162). -/
def prevState (s : CState) : CState :=
  gotoItemState s (s.currentItem - (s.slidesToScroll : Int)) true

/-- `onMove(callBack)` (lines 274-276). -/
def onMove (s : CState) (cb : Nat) : CState :=
  { s with moveCallBacks := s.moveCallBacks ++ [cb] }

/-- `resetInfinite()` (lines 258-268).  Note the branch conditions read
`this.options.slidesToScroll` (not the mobile-adjusted getter) and
`this.offset`; the jumps call `gotoItem` with `animation = false`. -/
def resetInfinite (s : CState) : CState :=
  if s.fromAction = false then s
  else
    let s1 :=
      if s.currentItem ≤ (s.opts.slidesToScroll : Int) then
        gotoItemState s
          (s.currentItem + ((s.items.length : Int) - 2 * (s.offset : Int))) false
      else if s.currentItem ≥ (s.items.length : Int) - (s.offset : Int) then
        gotoItemState s
          (s.currentItem - ((s.items.length : Int) - 2 * (s.offset : Int))) false
      else s
    { s1 with fromAction := false }

/-- ECMAScript `Array.prototype.slice(start, end)`: negative arguments
count from the end, both are clamped to `[0, length]`. -/
def jsSlice (xs : List Nat) (start fin : Int) : List Nat :=
  let len : Int := xs.length
  let lo : Int := if start < 0 then max (len + start) 0 else min start len
  let hi : Int := if fin < 0 then max (len + fin) 0 else min fin len
  (xs.drop lo.toNat).take (hi - lo).toNat

/-- DOM mutations performed by the constructor, coarse-grained but in
source order. -/
inductive DomOp where
  | createDiv (cls : String)
  | setAttr (key value : String)
  | append (what : String)
  | setStyle (what : String)
deriving DecidableEq

/-- Callback id of the navigation observer (registered at line 141). -/
def navCbId : Nat := 0

/-- Callback id of the pagination observer (registered at line 182). -/
def pagCbId : Nat := 1

/-- `createNavigation()` (lines 129-154): in loop mode it returns before
registering its observer; otherwise it registers the hide/show observer. -/
def createNavigation (s : CState) : CState :=
  if s.opts.loop then s else onMove s navCbId

/-- Observer-registration part of `createPagination()` (line 182). -/
def createPagination (s : CState) : CState :=
  onMove s pagCbId

/-- The constructor (lines 14-103).  The loop/infinite conflict check of
lines 31-33 precedes every DOM mutation (root/container creation starts
at line 44), so the error branch carries an empty `DomOp` trace.  In the
infinite branch (lines 58-70) the clone blocks are built with
`Array.prototype.slice`, `currentItem` is set to `offset`, and
`gotoItem(offset)` is called (with `animation` defaulted to `true`). -/
def mkCarousel (opts : Options) (children : List Nat) : List DomOp × Except String CState :=
  if opts.loop ∧ opts.infinite then
    ([], Except.error "A carousel can not be both loop and infinite")
  else
    let baseOps :=
      [DomOp.createDiv "carousel", DomOp.createDiv "carousel__container",
       DomOp.setAttr "tabindex" "0", DomOp.append "carousel__container",
       DomOp.append "carousel"]
        ++ children.foldr
            (fun _ acc =>
              DomOp.createDiv "carousel__item" :: DomOp.append "carousel__item" :: acc) []
    let s0 : CState :=
      { opts := opts, items := children, currentItem := 0, offset := 0,
        isMobile := false, fromAction := false, moveCallBacks := [],
        lastAnimated := true, intervalID := none }
    let s1 :=
      if opts.infinite then
        let off := opts.slidesVisible + opts.slidesToScroll
        let items1 :=
          jsSlice children ((children.length : Int) - (off : Int)) (children.length : Int)
            ++ children ++ jsSlice children 0 (off : Int)
        gotoItemState
          { s0 with offset := off, items := items1, currentItem := (off : Int) }
          (off : Int) true
      else s0
    let s2 := if opts.navigation then createNavigation s1 else s1
    let s3 := if opts.pagination then createPagination s2 else s2
    (baseOps ++ [DomOp.setStyle "container width", DomOp.setStyle "item widths"],
     Except.ok s3)

/-- A placeholder state used only to destructure `Except.ok` results. -/
def emptyState : CState :=
  { opts := defaultOptions, items := [], currentItem := 0, offset := 0,
    isMobile := false, fromAction := false, moveCallBacks := [],
    lastAnimated := true, intervalID := none }

/-- Extract the constructed state of a successful `mkCarousel`. -/
def getOk (r : List DomOp × Except String CState) : CState :=
  match r.2 with
  | Except.ok s => s
  | Except.error _ => emptyState

/-- The indices `i` visited by the pagination loop
`for (i = 0; i < items.length - 2*offset; i += slidesToScroll)`
(line 175); one button is created per visited index. -/
def pagLoopBound (s : CState) : Nat :=
  ((s.items.length : Int) - 2 * (s.offset : Int)).toNat

/-- The buttons created by `createPagination` (lines 175-180), identified
by their loop index. -/
def pagButtons (s : CState) : List Nat :=
  (List.range (pagLoopBound s)).filter (fun i => i % s.opts.slidesToScroll = 0)

/-- JS `Math.round`: halves round toward positive infinity. -/
def jsRound (q : ℚ) : Int :=
  ⌊q + 1 / 2⌋

/-- The active-button computation of the pagination observer
(line 184): `buttons[Math.round(((index - offset) % count) / slidesToScroll)]`.
JS `%` truncates toward zero (`Int.tmod`); a zero `count` or a zero
`slidesToScroll` produces `NaN`/`Infinity` subscripts, and any subscript
outside `[0, buttons.length)` yields `undefined` — both modelled as
`none` (no button selected, guarded by `if (activeButton)` at line 186). -/
def activeButtonIdx (s : CState) (index : Int) : Option Nat :=
  let count : Int := (s.items.length : Int) - 2 * (s.offset : Int)
  if count = 0 ∨ s.opts.slidesToScroll = 0 then none
  else
    let v : Int :=
      jsRound ((Int.tmod (index - (s.offset : Int)) count : ℚ) /
        (s.opts.slidesToScroll : ℚ))
    if 0 ≤ v ∧ v < (pagButtons s).length then some v.toNat else none

/-- The browser's live interval timers: the ids currently active and the
next fresh id `setInterval` would return. -/
structure TimerWorld where
  active : List Nat
  fresh : Nat
deriving DecidableEq

/-- `setInterval(...)`: registers a new repeating timer, returns its id. -/
def setIntervalFresh (w : TimerWorld) : Nat × TimerWorld :=
  (w.fresh, { active := w.active ++ [w.fresh], fresh := w.fresh + 1 })

/-- `clearInterval(id)`. -/
def clearIntervalId (w : TimerWorld) (id : Nat) : TimerWorld :=
  { w with active := w.active.filter (fun a => a ≠ id) }

/-- `autoplay()` (lines 325-327): unconditionally starts a new interval
(whose tick calls `next()`) and overwrites `intervalID` with its id. -/
def autoplay (s : CState) (w : TimerWorld) : CState × TimerWorld :=
  let (id, w1) := setIntervalFresh w
  ({ s with intervalID := some id }, w1)

/-- `stopAutoplay()` (lines 332-334): clears the interval referenced by
`intervalID` when non-null; `intervalID` itself is left unchanged. -/
def stopAutoplay (s : CState) (w : TimerWorld) : CState × TimerWorld :=
  match s.intervalID with
  | none => (s, w)
  | some id => (s, clearIntervalId w id)

/-- The `(callback, argument)` pairs of the observer invocations in an
effect trace, in order. -/
def invokedWith (tr : List Effect) : List (Nat × Int) :=
  tr.filterMap (fun e =>
    match e with
    | Effect.invoke cb i => some (cb, i)
    | _ => none)

/-! ### Concrete carousels used by individual claims -/

/-- Loop carousel over 2 children with `slidesVisible = 3` (more visible
slides than items). -/
def wideLoopState : CState :=
  getOk (mkCarousel { defaultOptions with slidesVisible := 3, loop := true } [0, 1])

/-- Plain carousel over 4 children with the default options. -/
def plainFourState : CState :=
  getOk (mkCarousel defaultOptions [0, 1, 2, 3])

/-- Loop carousel over 6 children, `slidesVisible = 2`,
`slidesToScroll = 3`, moved to index 1 (reachable via `moveTo(1)`). -/
def loopAtOneState : CState :=
  gotoItemState
    (getOk (mkCarousel
      { defaultOptions with slidesVisible := 2, slidesToScroll := 3, loop := true }
      [0, 1, 2, 3, 4, 5]))
    1 true

/-- Loop carousel over 6 children, `slidesVisible = 2`,
`slidesToScroll = 2`, freshly constructed (`currentItem = 0`). -/
def loopSixState : CState :=
  getOk (mkCarousel
    { defaultOptions with slidesVisible := 2, slidesToScroll := 2, loop := true }
    [0, 1, 2, 3, 4, 5])

/-- Infinite carousel over 6 children with
`slidesVisible = slidesToScroll = 1` (the spec's example: `offset = 2`,
10 internal items, `currentItem = 2`). -/
def infSixState : CState :=
  getOk (mkCarousel { defaultOptions with infinite := true } [0, 1, 2, 3, 4, 5])

/-- `infSixState` after one `prev()`: `currentItem = 1 ≤ slidesToScroll`
and the transition came from an action, so `resetInfinite` must jump. -/
def infAtOneState : CState :=
  prevState infSixState

/-- Infinite carousel over a single child: fewer children than the clone
offset `slidesVisible + slidesToScroll = 2`. -/
def infOneChildState : CState :=
  getOk (mkCarousel { defaultOptions with infinite := true } [0])

/-- The carousel of `script.js` on 6 children:
`slidesToScroll = 2, slidesVisible = 2, pagination = true`. -/
def scriptSixState : CState :=
  getOk (mkCarousel
    { defaultOptions with slidesToScroll := 2, slidesVisible := 2, pagination := true }
    [0, 1, 2, 3, 4, 5])

/-- The C6 scenario carousel: 6 children,
`slidesToScroll = 2, slidesVisible = 2, loop = false, infinite = false`. -/
def scenarioSixState : CState :=
  getOk (mkCarousel
    { defaultOptions with slidesToScroll := 2, slidesVisible := 2 }
    [0, 1, 2, 3, 4, 5])

/-- An autoplay carousel (3 children) right after the constructor's
`autoplay()` call (line 93), paired with the browser timer state. -/
def autoplayStart : CState × TimerWorld :=
  autoplay (getOk (mkCarousel { defaultOptions with autoplay := true } [0, 1, 2]))
    { active := [], fresh := 0 }

end Carousel

namespace Carousel

/-! ### Helper lemmas -/

theorem correctedIndex_of_no_branch (s : CState) (index : Int)
    (h1 : ¬ (index + (s.slidesVisible : Int) > (s.items.length : Int) ∧ index > s.currentItem))
    (h2 : ¬ (index < 0 ∧ index < s.currentItem)) :
    correctedIndex s index = index := by
  unfold correctedIndex
  rw [if_neg h1, if_neg h2]

theorem correctedIndex_of_bwd (s : CState) (index : Int)
    (h1 : ¬ (index + (s.slidesVisible : Int) > (s.items.length : Int) ∧ index > s.currentItem))
    (h2 : index < 0 ∧ index < s.currentItem) :
    correctedIndex s index =
      if (bwdShortfall s : Int) < (s.slidesToScroll : Int) then
        index + bwdShortfall s
      else index := by
  unfold correctedIndex
  rw [if_neg h1, if_pos h2]

theorem correctedIndex_of_fwd (s : CState) (index : Int)
    (h1 : index + (s.slidesVisible : Int) > (s.items.length : Int) ∧ index > s.currentItem) :
    correctedIndex s index =
      if (fwdShortfall s : Int) < (s.slidesToScroll : Int) then
        index - fwdShortfall s
      else index := by
  unfold correctedIndex
  rw [if_pos h1]

theorem bwdShortfall_eq_zero (s : CState)
    (h1 : (s.slidesToScroll : Int) ≤ s.currentItem)
    (h2 : s.currentItem < (s.items.length : Int)) :
    bwdShortfall s = 0 := by
  unfold bwdShortfall
  rw [List.length_eq_zero, List.filter_eq_nil_iff]
  intro a ha
  rw [List.mem_range] at ha
  simp only [decide_eq_true_eq, Decidable.not_not, CState.itemDefined]
  omega

theorem bwdShortfall_eq_all (s : CState) (h : s.currentItem ≤ 0) :
    bwdShortfall s = s.slidesToScroll := by
  unfold bwdShortfall
  have hf : List.filter
      (fun i : Nat => decide (¬ s.itemDefined (s.currentItem - ((i : Int) + 1))))
      (List.range s.slidesToScroll) = List.range s.slidesToScroll := by
    rw [List.filter_eq_self]
    intro a _
    simp only [decide_eq_true_eq, CState.itemDefined]
    omega
  rw [hf, List.length_range]

theorem fwdShortfall_eq_zero (s : CState)
    (h0 : 0 ≤ s.currentItem)
    (h : s.currentItem + (s.slidesToScroll : Int) + (s.slidesVisible : Int)
        ≤ (s.items.length : Int)) :
    fwdShortfall s = 0 := by
  unfold fwdShortfall
  rw [List.length_eq_zero, List.filter_eq_nil_iff]
  intro a ha
  rw [List.mem_range] at ha
  simp only [decide_eq_true_eq, Decidable.not_not, CState.itemDefined]
  omega

theorem gotoItemIndex_cases (s : CState) (index : Int) :
    gotoItemIndex s index = s.currentItem ∨
    (s.opts.loop = true ∧
      gotoItemIndex s index = (s.items.length : Int) - (s.slidesVisible : Int)) ∨
    (s.opts.loop = true ∧ gotoItemIndex s index = 0) ∨
    (0 ≤ gotoItemIndex s index ∧ gotoItemIndex s index < (s.items.length : Int)) := by
  unfold gotoItemIndex
  by_cases hneg : correctedIndex s index < 0
  · rw [if_pos hneg]
    by_cases hl : s.opts.loop = true
    · rw [if_pos hl]
      exact Or.inr (Or.inl ⟨hl, rfl⟩)
    · rw [if_neg hl]
      exact Or.inl rfl
  · rw [if_neg hneg]
    by_cases hover : correctedIndex s index ≥ (s.items.length : Int) ∨
        (¬ s.itemDefined (s.currentItem + (s.slidesVisible : Int)) ∧
          correctedIndex s index > s.currentItem)
    · rw [if_pos hover]
      by_cases hl : s.opts.loop = true
      · rw [if_pos hl]
        exact Or.inr (Or.inr (Or.inl ⟨hl, rfl⟩))
      · rw [if_neg hl]
        exact Or.inl rfl
    · rw [if_neg hover]
      push_neg at hover
      obtain ⟨hlt, -⟩ := hover
      exact Or.inr (Or.inr (Or.inr ⟨by omega, hlt⟩))

theorem gotoItemIndex_of_neg (s : CState) (index : Int)
    (h : correctedIndex s index < 0) :
    gotoItemIndex s index =
      if s.opts.loop then (s.items.length : Int) - (s.slidesVisible : Int)
      else s.currentItem := by
  unfold gotoItemIndex
  rw [if_pos h]

theorem gotoItemIndex_of_over (s : CState) (index : Int)
    (h0 : ¬ correctedIndex s index < 0)
    (h : correctedIndex s index ≥ (s.items.length : Int) ∨
      (¬ s.itemDefined (s.currentItem + (s.slidesVisible : Int)) ∧
        correctedIndex s index > s.currentItem)) :
    gotoItemIndex s index = if s.opts.loop then 0 else s.currentItem := by
  unfold gotoItemIndex
  rw [if_neg h0, if_pos h]

theorem gotoItemIndex_of_id (s : CState) (index : Int)
    (h0 : ¬ correctedIndex s index < 0)
    (h : ¬ (correctedIndex s index ≥ (s.items.length : Int) ∨
      (¬ s.itemDefined (s.currentItem + (s.slidesVisible : Int)) ∧
        correctedIndex s index > s.currentItem))) :
    gotoItemIndex s index = correctedIndex s index := by
  unfold gotoItemIndex
  rw [if_neg h0, if_neg h]

theorem filter_mod_count (step m : Nat) (hstep : 1 ≤ step) :
    ((List.range m).filter (fun i => i % step = 0)).length = (m + step - 1) / step := by
  induction m with
  | zero =>
    simp only [List.range_zero, List.filter_nil, List.length_nil, Nat.zero_add]
    rw [Nat.div_eq_of_lt (by omega : step - 1 < step)]
  | succ n ih =>
    rw [List.range_succ, List.filter_append, List.length_append, ih]
    by_cases hn : n % step = 0
    · have hfil : List.filter (fun i => decide (i % step = 0)) [n] = [n] := by
        simp [hn]
      rw [hfil, List.length_cons, List.length_nil]
      obtain ⟨k, hk⟩ := Nat.dvd_of_mod_eq_zero hn
      subst hk
      have e1 : step * k + step - 1 = step * k + (step - 1) := by
        generalize step * k = A
        omega
      have e2 : step * k + 1 + step - 1 = step * (k + 1) := by
        rw [Nat.mul_succ]
        generalize step * k = A
        omega
      rw [e1, e2, Nat.mul_add_div (by omega : 0 < step),
        Nat.mul_div_cancel_left _ (by omega : 0 < step),
        Nat.div_eq_of_lt (by omega : step - 1 < step)]
    · have hfil : List.filter (fun i => decide (i % step = 0)) [n] = [] := by
        simp [hn]
      rw [hfil, List.length_nil, Nat.add_zero]
      obtain ⟨q, r, rfl, hr⟩ : ∃ q r, n = step * q + r ∧ r < step :=
        ⟨n / step, n % step, (Nat.div_add_mod n step).symm, Nat.mod_lt _ (by omega)⟩
      have hr1 : 1 ≤ r := by
        rcases Nat.eq_zero_or_pos r with h0 | h0
        · subst h0
          exact absurd (by simp [Nat.mul_add_mod]) hn
        · exact h0
      have e1 : step * q + r + step - 1 = step * (q + 1) + (r - 1) := by
        rw [Nat.mul_succ]
        generalize step * q = A
        omega
      have e2 : step * q + r + 1 + step - 1 = step * (q + 1) + r := by
        rw [Nat.mul_succ]
        generalize step * q = A
        omega
      rw [e1, e2, Nat.mul_add_div (by omega : 0 < step), Nat.mul_add_div (by omega : 0 < step),
        Nat.div_eq_of_lt (by omega : r - 1 < step), Nat.div_eq_of_lt hr]

theorem onMove_preserves (s : CState) (cb : Nat) :
    (onMove s cb).currentItem = s.currentItem ∧ (onMove s cb).items = s.items ∧
      (onMove s cb).offset = s.offset := by
  exact ⟨rfl, rfl, rfl⟩

theorem mkCarousel_state (opts : Options) (children : List Nat)
    (hni : ¬ (opts.loop = true ∧ opts.infinite = true)) (hinf : opts.infinite = true) :
    (getOk (mkCarousel opts children)).offset
        = opts.slidesVisible + opts.slidesToScroll ∧
    (getOk (mkCarousel opts children)).items
        = jsSlice children
            ((children.length : Int) - ((opts.slidesVisible + opts.slidesToScroll : Nat) : Int))
            (children.length : Int)
          ++ children ++ jsSlice children 0 ((opts.slidesVisible + opts.slidesToScroll : Nat) : Int) ∧
    (getOk (mkCarousel opts children)).currentItem
        = gotoItemIndex
            { opts := opts
              items := jsSlice children
                  ((children.length : Int) - ((opts.slidesVisible + opts.slidesToScroll : Nat) : Int))
                  (children.length : Int)
                ++ children ++ jsSlice children 0 ((opts.slidesVisible + opts.slidesToScroll : Nat) : Int)
              currentItem := ((opts.slidesVisible + opts.slidesToScroll : Nat) : Int)
              offset := opts.slidesVisible + opts.slidesToScroll
              isMobile := false, fromAction := false, moveCallBacks := []
              lastAnimated := true, intervalID := none }
            ((opts.slidesVisible + opts.slidesToScroll : Nat) : Int) := by
  unfold mkCarousel
  rw [if_neg hni]
  simp only [hinf, if_true, getOk, gotoItemState, gotoItem]
  by_cases hnav : opts.navigation <;> by_cases hpag : opts.pagination <;>
    simp [hnav, hpag, createNavigation, createPagination, onMove] <;>
    by_cases hlp : opts.loop = true <;> simp [hlp]

theorem invokedWith_append (t1 t2 : List Effect) :
    invokedWith (t1 ++ t2) = invokedWith t1 ++ invokedWith t2 :=
  List.filterMap_append _ _ _

theorem invokedWith_map (cbs : List Nat) (i : Int) :
    invokedWith (cbs.map (fun cb => Effect.invoke cb i))
      = cbs.map (fun cb => (cb, i)) := by
  induction cbs with
  | nil => rfl
  | cons a l ih =>
    simp only [List.map_cons]
    rw [show invokedWith (Effect.invoke a i :: l.map (fun cb => Effect.invoke cb i))
        = (a, i) :: invokedWith (l.map (fun cb => Effect.invoke cb i)) from rfl, ih]

/-! ### Claim theorems -/

/-- C4: constructing a Carousel with both `loop = true` and
`infinite = true` always fails with the error of line 32, and the failure
precedes any DOM mutation: the constructor's result carries an empty
`DomOp` trace, since the check at lines 31-33 runs before the first
element is created (line 44) or appended. -/
theorem construct_loop_infinite_error (opts : Options) (children : List Nat)
    (hl : opts.loop = true) (hi : opts.infinite = true) :
    mkCarousel opts children
      = ([], Except.error "A carousel can not be both loop and infinite") := by
  unfold mkCarousel
  rw [if_pos ⟨hl, hi⟩]

/-- Witness for `construct_loop_infinite_error` at a concrete
configuration. -/
theorem construct_loop_infinite_error_witness :
    mkCarousel { defaultOptions with loop := true, infinite := true } [0, 1]
      = ([], Except.error "A carousel can not be both loop and infinite") :=
  construct_loop_infinite_error
    { defaultOptions with loop := true, infinite := true } [0, 1] rfl rfl

/-- C5 (code bug): `autoplay()` unconditionally calls `setInterval` and
overwrites `intervalID` (line 326), so starting autoplay while a timer is
already running (constructor start at line 93 followed by a window
`focus` event, line 97) leaves two interval timers concurrently active
and loses the handle of the first, contradicting the required
"at most one autoplay interval timer is ever active". -/
theorem autoplay_second_timer :
    autoplayStart.2.active.length = 1 ∧
    (autoplay autoplayStart.1 autoplayStart.2).2.active = [0, 1] ∧
    (autoplay autoplayStart.1 autoplayStart.2).1.intervalID = some 1 := by
  decide

/-- C6: for 6 children with `slidesVisible = 2`, `slidesToScroll = 2`,
`loop = false`, `infinite = false`: `currentItem` starts at 0, two
`next()` calls reach 2 then 4, the third is a no-op, and every further
`next()` leaves `currentItem` at 4. -/
theorem scenario_six_next_idempotent :
    scenarioSixState.currentItem = 0 ∧
    (nextState scenarioSixState).currentItem = 2 ∧
    (nextState (nextState scenarioSixState)).currentItem = 4 ∧
    (nextState (nextState (nextState scenarioSixState))).currentItem = 4 ∧
    ∀ k : Nat,
      (nextState^[k]
        (nextState (nextState (nextState scenarioSixState)))).currentItem = 4 := by
  refine ⟨by decide, by decide, by decide, by decide, fun k => ?_⟩
  have hfix : nextState (nextState (nextState (nextState scenarioSixState)))
      = nextState (nextState (nextState scenarioSixState)) := by decide
  rw [Function.iterate_fixed hfix k]
  decide

/-- C9: every `gotoItem` call updates `currentItem` to the final index
and then invokes the registered move observers synchronously in
registration order, each receiving that final index: the effect trace
decomposes as a prefix without observer invocations, the `currentItem`
update, and a suffix whose invocations are exactly the registered
callbacks (in order) applied to the final index. -/
theorem gotoItem_observer_order (s : CState) (index : Int) (anim : Bool) :
    (gotoItem s index anim).1.currentItem = gotoItemIndex s index ∧
    ∃ t1 t2,
      (gotoItem s index anim).2 = t1 ++ Effect.setCurrent (gotoItemIndex s index) :: t2 ∧
      invokedWith t1 = [] ∧
      invokedWith t2 = s.moveCallBacks.map (fun cb => (cb, gotoItemIndex s index)) := by
  refine ⟨rfl,
    [Effect.translate ((gotoItemIndex s index : ℚ) * (-100) / (s.items.length : ℚ)) anim],
    s.moveCallBacks.map (fun cb => Effect.invoke cb (gotoItemIndex s index))
      ++ [Effect.setFromAction],
    ?_, ?_, ?_⟩
  · simp [gotoItem]
  · rfl
  · rw [invokedWith_append, invokedWith_map]
    simp [invokedWith]

/-- C10: even when the requested move is rejected and the final index
equals the unchanged `currentItem` (non-loop out-of-range request), the
observers are still invoked with that unchanged index and `fromAction`
is set to `true`: lines 233-237 run unconditionally. -/
theorem gotoItem_rejected_notifies (s : CState) (index : Int) (anim : Bool)
    (hloop : s.opts.loop = false)
    (hrej : gotoItemIndex s index = s.currentItem) :
    invokedWith (gotoItem s index anim).2
      = s.moveCallBacks.map (fun cb => (cb, s.currentItem)) ∧
    (gotoItem s index anim).1.fromAction = true ∧
    (gotoItem s index anim).1.currentItem = s.currentItem := by
  refine ⟨?_, rfl, by simp [gotoItem, hrej]⟩
  have h1 : (gotoItem s index anim).2
      = [Effect.translate ((gotoItemIndex s index : ℚ) * (-100) / (s.items.length : ℚ)) anim,
         Effect.setCurrent (gotoItemIndex s index)]
        ++ s.moveCallBacks.map (fun cb => Effect.invoke cb (gotoItemIndex s index))
        ++ [Effect.setFromAction] := rfl
  rw [h1, invokedWith_append, invokedWith_append, invokedWith_map, hrej]
  simp [invokedWith]

/-- Witness for `gotoItem_rejected_notifies`: a plain 4-item carousel
rejects `moveTo(99)` yet still notifies its navigation observer. -/
theorem gotoItem_rejected_notifies_witness :
    invokedWith (gotoItem plainFourState 99 true).2
      = plainFourState.moveCallBacks.map (fun cb => (cb, plainFourState.currentItem)) ∧
    (gotoItem plainFourState 99 true).1.fromAction = true ∧
    (gotoItem plainFourState 99 true).1.currentItem = plainFourState.currentItem :=
  gotoItem_rejected_notifies plainFourState 99 true (by decide) (by decide)

/-- C1 counterexample: the claim quantifies over every configuration,
but a loop carousel whose `slidesVisible` (3) exceeds its item count (2)
is driven to `currentItem = -1` by `moveTo(-1)`: the loop clamp of
line 216 assigns `items.length - slidesVisible`, which is negative. -/
theorem gotoItem_bounds_cex :
    (gotoItemState wideLoopState (-1) true).currentItem = -1 ∧
    ¬ (0 ≤ (gotoItemState wideLoopState (-1) true).currentItem ∧
        (gotoItemState wideLoopState (-1) true).currentItem
          < ((gotoItemState wideLoopState (-1) true).items.length : Int)) := by
  decide

/-- C1 (amended): for every state with `0 ≤ currentItem < items.length`
and `1 ≤ slidesVisible ≤ items.length` (as every carousel built by the
constructor with sensible options satisfies), after any `gotoItem` call
`0 ≤ currentItem < items.length` still holds. -/
theorem gotoItem_bounds_amended (s : CState) (index : Int) (anim : Bool)
    (hc0 : 0 ≤ s.currentItem) (hcL : s.currentItem < (s.items.length : Int))
    (hsV1 : 1 ≤ s.slidesVisible)
    (hsVL : (s.slidesVisible : Int) ≤ (s.items.length : Int)) :
    0 ≤ (gotoItemState s index anim).currentItem ∧
      (gotoItemState s index anim).currentItem < (s.items.length : Int) := by
  have hcur : (gotoItemState s index anim).currentItem = gotoItemIndex s index := rfl
  rw [hcur]
  rcases gotoItemIndex_cases s index with h | ⟨-, h⟩ | ⟨-, h⟩ | ⟨h1, h2⟩ <;>
    constructor <;> omega

/-- Witness for `gotoItem_bounds_amended` on a concrete plain carousel. -/
theorem gotoItem_bounds_amended_witness :
    0 ≤ (gotoItemState plainFourState 2 true).currentItem ∧
      (gotoItemState plainFourState 2 true).currentItem
        < (plainFourState.items.length : Int) :=
  gotoItem_bounds_amended plainFourState 2 true (by decide) (by decide) (by decide)
    (by decide)

/-- C2 counterexample: in loop mode from the reachable state
`currentItem = 1` (with `slidesToScroll = 3`, 6 items,
`slidesVisible = 2`), the backward shortfall correction of lines 207-213
re-targets `moveTo(-1)` to index 1, not to
`items.length - slidesVisible = 4`. -/
theorem loop_moveTo_neg_one_cex :
    loopAtOneState.opts.loop = true ∧
    loopAtOneState.currentItem = 1 ∧
    (gotoItemState loopAtOneState (-1) true).currentItem = 1 ∧
    (gotoItemState loopAtOneState (-1) true).currentItem
      ≠ (loopAtOneState.items.length : Int) - (loopAtOneState.slidesVisible : Int) := by
  decide

/-- C2 (amended): in loop mode, from a state with
`0 ≤ currentItem < items.length`: `moveTo(-1)` lands on
`items.length - slidesVisible` provided the backward shortfall
correction does not re-target the move (`currentItem = 0` or
`currentItem ≥ slidesToScroll`); `moveTo(items.length)` lands on `0`
provided the forward correction does not
(`currentItem + slidesToScroll + slidesVisible ≤ items.length`). -/
theorem loop_moveTo_boundary_amended (s : CState) (anim : Bool)
    (hloop : s.opts.loop = true)
    (hc0 : 0 ≤ s.currentItem) (hcL : s.currentItem < (s.items.length : Int)) :
    ((s.currentItem = 0 ∨ (s.slidesToScroll : Int) ≤ s.currentItem) →
      (gotoItemState s (-1) anim).currentItem
        = (s.items.length : Int) - (s.slidesVisible : Int)) ∧
    (s.currentItem + (s.slidesToScroll : Int) + (s.slidesVisible : Int)
        ≤ (s.items.length : Int) →
      (gotoItemState s (s.items.length : Int) anim).currentItem = 0) := by
  constructor
  · intro hcase
    have hcur : (gotoItemState s (-1) anim).currentItem = gotoItemIndex s (-1) := rfl
    rw [hcur]
    have hcorr : correctedIndex s (-1) = -1 := by
      rw [correctedIndex_of_bwd s (-1) (by omega) ⟨by omega, by omega⟩]
      rcases hcase with h0 | hge
      · rw [bwdShortfall_eq_all s (by omega)]
        split_ifs <;> omega
      · rw [bwdShortfall_eq_zero s hge hcL]
        split_ifs <;> omega
    rw [gotoItemIndex_of_neg s (-1) (by omega), if_pos hloop]
  · intro hfit
    have hcur : (gotoItemState s (s.items.length : Int) anim).currentItem
        = gotoItemIndex s (s.items.length : Int) := rfl
    rw [hcur]
    have hcorr : correctedIndex s (s.items.length : Int) = (s.items.length : Int) := by
      by_cases hb : (s.items.length : Int) + (s.slidesVisible : Int) > (s.items.length : Int)
          ∧ (s.items.length : Int) > s.currentItem
      · rw [correctedIndex_of_fwd s (s.items.length : Int) hb,
          fwdShortfall_eq_zero s hc0 hfit]
        split_ifs <;> omega
      · exact correctedIndex_of_no_branch s (s.items.length : Int) hb (by omega)
    rw [gotoItemIndex_of_over s (s.items.length : Int) (by omega)
        (Or.inl (by omega)), if_pos hloop]

/-- Witness for `loop_moveTo_boundary_amended` on a freshly constructed
6-item loop carousel (`currentItem = 0`). -/
theorem loop_moveTo_boundary_amended_witness :
    (gotoItemState loopSixState (-1) true).currentItem
      = (loopSixState.items.length : Int) - (loopSixState.slidesVisible : Int) ∧
    (gotoItemState loopSixState (loopSixState.items.length : Int) true).currentItem = 0 :=
  ⟨(loop_moveTo_boundary_amended loopSixState true (by decide) (by decide)
      (by decide)).1 (by decide),
   (loop_moveTo_boundary_amended loopSixState true (by decide) (by decide)
      (by decide)).2 (by decide)⟩

/-- C3: `resetInfinite` is a no-op unless `fromAction` is set; when it
is set, on an infinite-mode carousel (`offset = slidesVisible +
slidesToScroll`, `items.length = n + 2*offset` for the `n` original
children, desktop mode): if `currentItem <= options.slidesToScroll` it
jumps forward by exactly `items.length - 2*offset` without animation, if
`currentItem >= items.length - offset` it jumps backward by the same
amount without animation, otherwise `currentItem` is unchanged; in every
case `fromAction` is `false` afterwards. -/
theorem resetInfinite_spec (s : CState) (n : Nat)
    (hmob : s.isMobile = false)
    (hoff : s.offset = s.opts.slidesVisible + s.opts.slidesToScroll)
    (hlen : s.items.length = n + 2 * s.offset)
    (hn : 1 ≤ n)
    (hsV : 1 ≤ s.opts.slidesVisible) (hsTS : 1 ≤ s.opts.slidesToScroll)
    (hc0 : 0 ≤ s.currentItem) (hcL : s.currentItem < (s.items.length : Int)) :
    (s.fromAction = false → resetInfinite s = s) ∧
    (s.fromAction = true → s.currentItem ≤ (s.opts.slidesToScroll : Int) →
      (resetInfinite s).currentItem
          = s.currentItem + ((s.items.length : Int) - 2 * (s.offset : Int)) ∧
        (resetInfinite s).lastAnimated = false ∧
        (resetInfinite s).fromAction = false) ∧
    (s.fromAction = true → s.currentItem ≥ (s.items.length : Int) - (s.offset : Int) →
      (resetInfinite s).currentItem
          = s.currentItem - ((s.items.length : Int) - 2 * (s.offset : Int)) ∧
        (resetInfinite s).lastAnimated = false ∧
        (resetInfinite s).fromAction = false) ∧
    (s.fromAction = true → (s.opts.slidesToScroll : Int) < s.currentItem →
      s.currentItem < (s.items.length : Int) - (s.offset : Int) →
      (resetInfinite s).currentItem = s.currentItem ∧
        (resetInfinite s).fromAction = false) := by
  have egV : s.slidesVisible = s.opts.slidesVisible := by
    simp [CState.slidesVisible, hmob]
  have egT : s.slidesToScroll = s.opts.slidesToScroll := by
    simp [CState.slidesToScroll, hmob]
  refine ⟨?_, ?_, ?_, ?_⟩
  · intro hfa
    simp [resetInfinite, hfa]
  · intro hfa hle
    have htgt : gotoItemIndex s
        (s.currentItem + ((s.items.length : Int) - 2 * (s.offset : Int)))
        = s.currentItem + ((s.items.length : Int) - 2 * (s.offset : Int)) := by
      have hcorr : correctedIndex s
          (s.currentItem + ((s.items.length : Int) - 2 * (s.offset : Int)))
          = s.currentItem + ((s.items.length : Int) - 2 * (s.offset : Int)) := by
        apply correctedIndex_of_no_branch
        · rw [egV]
          omega
        · omega
      rw [gotoItemIndex_of_id s _ (by omega) ?_, hcorr]
      rw [hcorr]
      simp only [CState.itemDefined, egV]
      omega
    have hres : resetInfinite s
        = { gotoItemState s
              (s.currentItem + ((s.items.length : Int) - 2 * (s.offset : Int))) false
            with fromAction := false } := by
      simp [resetInfinite, hfa, hle]
    rw [hres]
    refine ⟨?_, rfl, rfl⟩
    show gotoItemIndex s _ = _
    exact htgt
  · intro hfa hge
    have hnotle : ¬ s.currentItem ≤ (s.opts.slidesToScroll : Int) := by omega
    have htgt : gotoItemIndex s
        (s.currentItem - ((s.items.length : Int) - 2 * (s.offset : Int)))
        = s.currentItem - ((s.items.length : Int) - 2 * (s.offset : Int)) := by
      have hcorr : correctedIndex s
          (s.currentItem - ((s.items.length : Int) - 2 * (s.offset : Int)))
          = s.currentItem - ((s.items.length : Int) - 2 * (s.offset : Int)) := by
        apply correctedIndex_of_no_branch
        · omega
        · omega
      rw [gotoItemIndex_of_id s _ (by omega) ?_, hcorr]
      rw [hcorr]
      simp only [CState.itemDefined, egV]
      omega
    have hres : resetInfinite s
        = { gotoItemState s
              (s.currentItem - ((s.items.length : Int) - 2 * (s.offset : Int))) false
            with fromAction := false } := by
      simp [resetInfinite, hfa, hnotle, hge]
    rw [hres]
    refine ⟨?_, rfl, rfl⟩
    show gotoItemIndex s _ = _
    exact htgt
  · intro hfa hgt hlt
    have hres : resetInfinite s = { s with fromAction := false } := by
      simp only [resetInfinite]
      rw [if_neg (by simp [hfa]), if_neg (by omega :
          ¬ s.currentItem ≤ (s.opts.slidesToScroll : Int)), if_neg (by omega :
          ¬ s.currentItem ≥ (s.items.length : Int) - (s.offset : Int))]
    rw [hres]
    exact ⟨rfl, rfl⟩

/-- Witness for `resetInfinite_spec`: the 6-child infinite carousel
after one `prev()` sits at `currentItem = 1 ≤ slidesToScroll` with
`fromAction` set, and the reset jumps it forward to 7 without
animation. -/
theorem resetInfinite_spec_witness :
    (resetInfinite infAtOneState).currentItem
        = infAtOneState.currentItem
          + ((infAtOneState.items.length : Int) - 2 * (infAtOneState.offset : Int)) ∧
      (resetInfinite infAtOneState).lastAnimated = false ∧
      (resetInfinite infAtOneState).fromAction = false :=
  (resetInfinite_spec infAtOneState 6 (by decide) (by decide) (by decide) (by decide)
    (by decide) (by decide) (by decide) (by decide)).2.1 (by decide) (by decide)

theorem jsSlice_length_of_nonneg (xs : List Nat) (start fin : Int)
    (h0 : 0 ≤ start) (h1 : start ≤ fin) (h2 : fin ≤ (xs.length : Int)) :
    (jsSlice xs start fin).length = (fin - start).toNat := by
  unfold jsSlice
  simp only [List.length_take, List.length_drop]
  split_ifs <;> omega

/-- C7 (amended): constructing with `infinite = true` over `n` children
gives clone offset `slidesVisible + slidesToScroll`, an internal item
list of length `n + 2*offset`, and initial `currentItem = offset` --
provided `offset <= n`, since `Array.prototype.slice` cannot clone more
items than exist (lines 58-70). -/
theorem infinite_construction_amended (opts : Options) (children : List Nat)
    (hinf : opts.infinite = true) (hloop : opts.loop = false)
    (hsV : 1 ≤ opts.slidesVisible) (hsTS : 1 ≤ opts.slidesToScroll)
    (hfit : opts.slidesVisible + opts.slidesToScroll ≤ children.length) :
    (getOk (mkCarousel opts children)).offset
        = opts.slidesVisible + opts.slidesToScroll ∧
    (getOk (mkCarousel opts children)).items.length
        = children.length + 2 * (opts.slidesVisible + opts.slidesToScroll) ∧
    (getOk (mkCarousel opts children)).currentItem
        = ((opts.slidesVisible + opts.slidesToScroll : Nat) : Int) := by
  obtain ⟨ho, hi, hc⟩ := mkCarousel_state opts children (by simp [hloop]) hinf
  have hlen1 : (jsSlice children
      ((children.length : Int) - ((opts.slidesVisible + opts.slidesToScroll : Nat) : Int))
      (children.length : Int)).length = opts.slidesVisible + opts.slidesToScroll := by
    rw [jsSlice_length_of_nonneg children _ _ (by omega) (by omega) (by omega)]
    omega
  have hlen2 : (jsSlice children 0
      ((opts.slidesVisible + opts.slidesToScroll : Nat) : Int)).length
      = opts.slidesVisible + opts.slidesToScroll := by
    rw [jsSlice_length_of_nonneg children _ _ (by omega) (by omega) (by omega)]
    omega
  have hitems : (getOk (mkCarousel opts children)).items.length
      = children.length + 2 * (opts.slidesVisible + opts.slidesToScroll) := by
    rw [hi]
    simp only [List.length_append, hlen1, hlen2]
    omega
  refine ⟨ho, hitems, ?_⟩
  rw [hc]
  set sMid : CState :=
    { opts := opts
      items := jsSlice children
          ((children.length : Int) - ((opts.slidesVisible + opts.slidesToScroll : Nat) : Int))
          (children.length : Int)
        ++ children ++ jsSlice children 0 ((opts.slidesVisible + opts.slidesToScroll : Nat) : Int)
      currentItem := ((opts.slidesVisible + opts.slidesToScroll : Nat) : Int)
      offset := opts.slidesVisible + opts.slidesToScroll
      isMobile := false, fromAction := false, moveCallBacks := []
      lastAnimated := true, intervalID := none } with hsMid
  have hLm : sMid.items.length
      = children.length + 2 * (opts.slidesVisible + opts.slidesToScroll) := by
    rw [hsMid]
    simp only [List.length_append, hlen1, hlen2]
    omega
  have hcur : sMid.currentItem = ((opts.slidesVisible + opts.slidesToScroll : Nat) : Int) := rfl
  have hgV : sMid.slidesVisible = opts.slidesVisible := by
    simp [CState.slidesVisible, hsMid]
  have hgT : sMid.slidesToScroll = opts.slidesToScroll := by
    simp [CState.slidesToScroll, hsMid]
  have hcorr : correctedIndex sMid ((opts.slidesVisible + opts.slidesToScroll : Nat) : Int)
      = ((opts.slidesVisible + opts.slidesToScroll : Nat) : Int) := by
    apply correctedIndex_of_no_branch
    · rw [hcur]
      omega
    · rw [hcur]
      omega
  rw [gotoItemIndex_of_id sMid _ (by omega) ?_, hcorr]
  rw [hcorr, hcur]
  simp only [CState.itemDefined, hgV, hLm]
  omega

/-- C7 counterexample: with a single child and
`slidesVisible = slidesToScroll = 1` the offset is 2 but `slice` clamps
each clone block to the 1 existing item, so the internal list has
length 3, not `1 + 2*2 = 5`. -/
theorem infinite_construction_cex :
    infOneChildState.offset = 2 ∧
    infOneChildState.items.length = 3 ∧
    infOneChildState.items.length ≠ 1 + 2 * infOneChildState.offset := by
  decide

/-- Witness for `infinite_construction_amended`: the spec example
(6 children, `slidesVisible = slidesToScroll = 1`). -/
theorem infinite_construction_amended_witness :
    infSixState.offset = 2 ∧ infSixState.items.length = 10 ∧ infSixState.currentItem = 2 := by
  have h := infinite_construction_amended { defaultOptions with infinite := true }
    [0, 1, 2, 3, 4, 5] rfl rfl (by decide) (by decide) (by decide)
  exact ⟨h.1, h.2.1, h.2.2⟩

/-- C8: the pagination active-button computation of line 184 is total
(`activeButtonIdx` returns `none` for the `NaN`/`Infinity`/out-of-range
subscripts a negative or out-of-range `index` can produce, and the
`if (activeButton)` guard makes that select no button) and any selected
button is a real one; and the number of controls built by the loop of
line 175 equals `ceil((items.length - 2*offset) / slidesToScroll)`,
written with natural division as `(bound + step - 1) / step`. -/
theorem pagination_stable_and_count (s : CState) (hsTS : 1 ≤ s.opts.slidesToScroll) :
    (∀ index : Int, ∀ j : Nat,
        activeButtonIdx s index = some j → j < (pagButtons s).length) ∧
    (pagButtons s).length
      = (pagLoopBound s + s.opts.slidesToScroll - 1) / s.opts.slidesToScroll := by
  constructor
  · intro index j hj
    simp only [activeButtonIdx] at hj
    split at hj
    next => exact absurd hj (by simp)
    next h1 =>
      split at hj
      next h2 =>
        rw [Option.some_inj] at hj
        obtain ⟨hv0, hvlt⟩ := h2
        omega
      next h2 => exact absurd hj (by simp)
  · exact filter_mod_count s.opts.slidesToScroll (pagLoopBound s) hsTS

/-- Witness for `pagination_stable_and_count` on the carousel of
`script.js` (6 children, `slidesToScroll = 2`, pagination on):
3 buttons = `ceil(6/2)`. -/
theorem pagination_stable_and_count_witness :
    (pagButtons scriptSixState).length
      = (pagLoopBound scriptSixState + scriptSixState.opts.slidesToScroll - 1)
        / scriptSixState.opts.slidesToScroll :=
  (pagination_stable_and_count scriptSixState (by decide)).2

end Carousel
